import Mathlib

/-!
Verification of the Invoice_repository FastAPI service (src/main.py): a shallow embedding of
its prompt construction, request handling, keep-alive job, and singleton database accessor,
together with proofs of the specified properties.
-/

namespace Invoice

/-- `lit` occurs verbatim inside `s` (substring as a split into three pieces). -/
def containsLit (s lit : String) : Prop := ∃ a b : String, s = a ++ (lit ++ b)

/-- Prefix text before the \x7bdialect\x7d placeholder (src/main.py lines 263-290). -/
def prefSeg0 : String :=
"
        You are an advanced SQL database assistant specializing in answering user queries by interacting with the `Vw_Ai_Tbl_PO_PurchaseOrders_Invoices_Details` table in the `Common` schema.
        ### Handling General Queries:
        - If the query is a general greeting (e.g., \"Hi\", \"Hello\", \"How are you?\"), respond with a polite acknowledgment:
          - Example: \"Hello! How can I assist you today?\"
        - For unrelated or unclear questions, politely guide the user back to database-specific queries.
          - Example: \"I\x27m here to assist with database-related queries. How can I help?\"

        ### Responsibilities:
        1. Provide **precise** and **contextually relevant** answers strictly based on the specified table and schema.
        2. Ensure **query normalization and standardization** to deliver consistent and meaningful results for similar questions.
        3. Leverage response history to avoid redundant queries, optimizing efficiency and user satisfaction.
        
        ### Query Normalization Guidelines:
        - **Input Transformation**: 
        1.Convert all input text to lowercase for case-insensitive handling.
        2.Replace punctuation characters (e.g., -, _, ,, .) with spaces for better uniformity.
        3.Remove leading and trailing whitespaces; collapse multiple spaces into a single space.
        - **String Functions**:
        1.Use SQL string functions like `LOWER()`, `TRIM()`, `REPLACE()`, and fuzzy matching (`LIKE`, `LEVENSHTEIN()`, `SOUNDEX`) to account for minor spelling errors or variations.
        - **Case Mismatch Handling**:
        1.If the data in the database is stored in a specific case (e.g., uppercase), ensure that both the input and the database column are transformed to the same case during processing.
        - **For consistent matching**: 
        1.Normalize input to match the stored case (e.g., UPPER() for uppercase or LOWER() for lowercase).
        2.Apply the same transformation on both sides of the comparison.
        3.Use case-insensitive comparisons (e.g., ILIKE for PostgreSQL, collations in MySQL).
        ### SQL Query Construction:
        1. Ensure the query adheres to the **"

/-- Prefix text between the \x7bdialect\x7d and first \x7btop_k\x7d placeholders. -/
def prefSeg1 : String :=
" dialect** syntax.
        2. Use **specific columns** in the SELECT clause for precision; avoid `SELECT *`.
        3. Apply **LIMIT "

/-- Prefix text between the two \x7btop_k\x7d placeholders. -/
def prefSeg2 : String :=
"** unless the user explicitly specifies a different limit in their query. The value of `top_k` is dynamically set to **30** by default for this session, ensuring the response includes at most 30 results unless overridden by user input.
        - If no explicit limit is mentioned in the query, default to **LIMIT "

/-- Prefix text between the second \x7btop_k\x7d placeholder and the LIMIT priority block. -/
def prefSeg3 : String :=
"**, where `top_k=30` for this session.
        - If the user explicitly specifies a `LIMIT` value, override the default `top_k` and use the user\x27s provided value.
        - Ensure every SQL query includes a `LIMIT` clause, either with the default `top_k` or as explicitly stated by the user.
        - "

/-- Prefix text between the LIMIT priority block and the \x7bcolumn_metadata\x7d placeholder. -/
def prefSeg4 : String :=
"
        4. Order results by **relevant columns** for clarity (e.g., `ApprovedDate DESC` for recent approvals).
        5. Validate query syntax before execution to ensure success and eliminate errors.
        6. Incorporate conditions for **filtering by user intent** and domain-specific logic (e.g., fetching purchase orders for a particular `VesselName` or `SMC`).
        7. When queried regarding **unique vendors**, the unique vendors are supposed to be calculated based on  **VENDOREMAIL**
        8. Use the **PO_USD_VALUE** column for the questions regarding the purchase.
        ### Rules of Engagement:
        - Do not perform Data Manipulation Language (DML) operations such as `INSERT`, `UPDATE`, or `DELETE`.
        - Use **Markdown format** for presenting results:
          - Include bordered tables for tabular data for better readability.
        - If the query is unrelated to the database or cannot be addressed, respond with:
          *\"I\x27m unable to provide an answer for that. This information is not available.\"*
        - Handle ambiguous questions by:
          1. Politely clarifying the user\x27s intent.
          2. Assuming the most logical interpretation when clarification isn\x27t feasible.
        - **Tone and Style**:
          - Be professional, concise, and courteous in responses.
          - Avoid database-specific jargon unless directly relevant.
          - Use the following metadata "

/-- Prefix text between the \x7bcolumn_metadata\x7d and \x7bMetadata_Groupings\x7d placeholders. -/
def prefSeg5 : String :=
" and "

/-- Prefix text after the \x7bMetadata_Groupings\x7d placeholder. -/
def prefSeg6 : String :=
"
        
        Your ultimate goal is to ensure clarity, accuracy, and user satisfaction while adhering strictly to data access and usage guidelines.


        "

/-- The literal, never-substituted dialect placeholder appearing in the prefix string. -/
def phDialect : String := "\x7bdialect\x7d"

/-- The literal, never-substituted top-k placeholder appearing in the prefix string. -/
def phTopK : String := "\x7btop_k\x7d"

/-- Text of the LIMIT priority rule before its `top_k=30` default (src/main.py lines 296-298). -/
def limitPrioA : String :=
"Priority for `LIMIT`:
          1. Explicit value provided by the user.
          2. Default value set to `"

/-- Text of the LIMIT priority rule after its `top_k=30` default. -/
def limitPrioB : String :=
"` for this session."

/-- The LIMIT priority block of the prefix (src/main.py lines 296-298): explicit user value first, default `top_k=30` second. -/
def limitPriorityBlock : String := limitPrioA ++ "top_k=30" ++ limitPrioB

/-- The literal, never-substituted column-metadata placeholder appearing in the prefix string. -/
def phColumnMetadata : String := "\x7bcolumn_metadata\x7d"

/-- The literal, never-substituted metadata-groupings placeholder appearing in the prefix string. -/
def phMetadataGroupings : String := "\x7bMetadata_Groupings\x7d"

/-- The full system-instruction string `prefix` of src/main.py lines 263-321, written as the
concatenation of its text segments around the literal placeholder occurrences and the LIMIT
priority block; the concatenation equals the Python literal verbatim. -/
def prefixStr : String :=
  prefSeg0 ++ phDialect ++ prefSeg1 ++ phTopK ++ prefSeg2 ++ phTopK ++ prefSeg3 ++ limitPriorityBlock ++ prefSeg4 ++ phColumnMetadata ++ prefSeg5 ++ phMetadataGroupings ++ prefSeg6

/-- The trailing instruction string `suffix` of src/main.py lines 326-351, verbatim. -/
def suffixStr : String :=
"
        If asked about the database structure, table design, or unavailable data, respond politely:
        *\"I can answer questions from this database but cannot provide information about its structure or column names. Let me assist you with the data instead.\"*
        
        ### Additional Guidelines:
        1. Always validate queries against user intent:
           - Prioritize **relevance and accuracy**.
           - Use domain-specific filtering for improved results (e.g., filtering by `pocategory_id` for purchase order categories).
        2. Incorporate prompt optimization techniques:
           - Break down **complex questions** into smaller SQL components to ensure accuracy.
           - Apply **logical conditions** (e.g., combining multiple filters using `AND` or `OR`) for precise results.
        3. Handle ambiguity:
           - Clarify the query if needed.
           - Make reasonable assumptions based on the schema and metadata.
        4. Optimize performance:
           - Use indexed columns in filtering conditions to speed up queries.
           - Aggregate results when large datasets are involved (e.g., using `SUM()`, `AVG()`, `GROUP BY`).
        
        5. Present answers effectively:
           - Use **Markdown** tables with proper column headers and alignments.
           - Provide **concise summaries** when large datasets are returned.

        6. For handling big result data:
           - The result is too large to display. Please refine your query or use filters to reduce the result size to show the `top ten` results only.

        "

/-- Roles and contents of the conversation messages built at src/main.py lines 355-360. -/
inductive Msg where
  | system (content : String)
  | human (content : String)
  | ai (content : String)
  | placeholder (variableName : String)
deriving DecidableEq

/-- The locally computed row-limit variable of src/main.py line 66; it is never referenced
by the conversation construction. -/
def top_k : Nat := 10

/-- Conversation construction of src/main.py lines 353-360: a SystemMessage holding the raw,
unformatted prefix string, the user question as the human message, an AIMessage holding the
suffix string, and the agent-scratchpad placeholder. `dialect` and `topK` are in scope at the
construction site (src/main.py lines 65-66) but unreferenced; they appear as parameters here
only so that independence from them is a statable property. -/
def buildMessages (_dialect : String) (_topK : Nat) (userinput : String) : List Msg :=
  [Msg.system prefixStr, Msg.human userinput, Msg.ai suffixStr,
   Msg.placeholder "agent_scratchpad"]

/-- The string passed to agent_executor.invoke at src/main.py line 366. -/
def queryPrompt (userinput : String) : String := "Now answer this query: " ++ userinput

/-- Model of fastapi.HTTPException as raised at src/main.py line 370. -/
structure HttpError where
  status : Nat
  detail : String
deriving DecidableEq

/-- The fixed client-facing detail string of src/main.py line 370. -/
def fixedDetail : String := "An error occurred while processing the request."

/-- The JSON object returned on success at src/main.py line 367. -/
structure QueryResponse where
  response : String
deriving DecidableEq

/-- A server-side logging.error record carrying the original exception (exc_info=True). -/
inductive LogEntry (E : Type) where
  | errorLog (msg : String) (exc : E)
deriving DecidableEq

/-- The fallible body of handle_query (src/main.py lines 52-367): every step that can raise
(LLM construction, toolkit construction, agent construction, agent invocation) is collapsed
into the abstract `agent` call, which returns the executor final "output" field or raises. -/
def runBody {E DB : Type} (agent : DB → String → Except E String) (db : DB)
    (userinput : String) : Except E QueryResponse :=
  (agent db (queryPrompt userinput)).map QueryResponse.mk

/-- handle_query with its try/except (src/main.py lines 52 and 368-370): a successful body
returns the response object; any exception from the body is logged server-side and replaced
by HTTPException(500, fixedDetail). The second component is the server-side log. -/
def handle_query {E DB : Type} (agent : DB → String → Except E String) (db : DB)
    (userinput : String) : Except HttpError QueryResponse × List (LogEntry E) :=
  match runBody agent db userinput with
  | .ok r => (.ok r, [])
  | .error e => (.error ⟨500, fixedDetail⟩, [.errorLog "Error handling query:" e])

/-- Outcome of a full POST /query/ request, dependency resolution included. -/
inductive EndpointOutcome (E : Type) where
  | ok (r : QueryResponse)
  | handled (h : HttpError)
  | dependencyFailure (e : E)
deriving DecidableEq

/-- Whether an endpoint outcome is the handler-produced generic 500 with the fixed detail. -/
def EndpointOutcome.isFixed500 {E : Type} : EndpointOutcome E → Bool
  | .handled h => h.status == 500 && h.detail == fixedDetail
  | _ => false

/-- The POST /query/ pipeline (src/main.py lines 49-50): FastAPI resolves
Depends(get_db_connection) before the handler body starts, so an exception raised there
propagates as-is and never reaches handle_query's try/except. -/
def postQuery {E DB : Type} (resolveDep : Except E DB)
    (agent : DB → String → Except E String) (userinput : String) : EndpointOutcome E :=
  match resolveDep with
  | .error e => .dependencyFailure e
  | .ok db =>
    match handle_query agent db userinput with
    | (.ok r, _) => .ok r
    | (.error h, _) => .handled h

/-- Outcome of one keep-alive run. `caught` is the except-branch of src/main.py lines 34-35:
the exception is logged (logging.error with exc_info) and swallowed. `raised` models an
exception escaping the function; the definition below never produces it. -/
inductive KAResult (E : Type) where
  | succeeded
  | caught (e : E)
  | raised (e : E)
deriving DecidableEq

/-- Whether a keep-alive outcome lets an exception escape to the scheduler. -/
def KAResult.escapes {E : Type} : KAResult E → Bool
  | .raised _ => true
  | _ => false

/-- keep_connection_alive (src/main.py lines 29-35): fetch the singleton instance, execute
"SELECT 1" on it; try/except Exception logs and swallows any failure. Also returns the list
of (connection, query) pairs actually executed. -/
def keep_connection_alive {E DB : Type} (getInstance : Except E DB)
    (run : DB → String → Except E Unit) : KAResult E × List (DB × String) :=
  match getInstance with
  | .error e => (.caught e, [])
  | .ok db =>
    match run db "SELECT 1" with
    | .ok _ => (.succeeded, [(db, "SELECT 1")])
    | .error e => (.caught e, [(db, "SELECT 1")])

/-- An APScheduler job registration. -/
structure ScheduledJob where
  trigger : String
  seconds : Nat
deriving DecidableEq

/-- scheduler.add_job(keep_connection_alive, 'interval', seconds=999999), src/main.py line 41. -/
def keepAliveJob : ScheduledJob := { trigger := "interval", seconds := 999999 }

/-- Modelled from the spec: the interval the adjacent documentation claims — the comment at
src/main.py line 40 reads "Schedule the keep_connection_alive task to run every 10 seconds". -/
def documentedKeepAliveIntervalSeconds : Nat := 10

/-- `n` consecutive scheduler firings of the keep-alive job, each with its own environment;
the scheduling loop records every outcome and never stops on a failure. -/
def schedulerLoop {E DB : Type} (getInst : Nat → Except E DB)
    (run : Nat → DB → String → Except E Unit) : Nat → List (KAResult E)
  | 0 => []
  | n + 1 => schedulerLoop getInst run n ++ [(keep_connection_alive (getInst n) (run n)).1]

/-- Modelled from the spec: SingletonSQLDatabase.get_instance() (module `database`, which is
not part of src/) returns the process-wide connection, constructing it (`mk`) on the first
call and returning the same instance thereafter. The Option state is the cached instance. -/
def get_instance {DB : Type} (mk : DB) : Option DB → DB × Option DB
  | none => (mk, some mk)
  | some db => (db, some db)

/-- get_db_connection (src/main.py lines 44-46): returns SingletonSQLDatabase.get_instance(). -/
def get_db_connection {DB : Type} (mk : DB) (st : Option DB) : DB × Option DB :=
  get_instance mk st

/-- Modelled from the spec: the punctuation characters the normalization policy names
(src/main.py line 279: "e.g., -, _, ,, ."). -/
def punctChars : List Char := ['-', '_', ',', '.']

/-- Modelled from the spec: the per-character normalization step — lowercase the character,
then map punctuation to a space (src/main.py lines 278-279). -/
def normChar (c : Char) : Char :=
  if c.toLower ∈ punctChars then ' ' else c.toLower

/-- The maximal space-free words of a character list, in order. -/
def words : List Char → List (List Char)
  | [] => []
  | c :: cs =>
    if c = ' ' then words cs
    else (c :: cs.takeWhile (fun x => x != ' ')) :: words (cs.dropWhile (fun x => x != ' '))
termination_by l => l.length
decreasing_by
  · simp
  · have h : (cs.dropWhile (fun x => x != ' ')).length ≤ cs.length :=
      (List.dropWhile_suffix _).length_le
    simp
    omega

/-- Joins words with single spaces. -/
def unwords : List (List Char) → List Char
  | [] => []
  | [w] => w
  | w :: ws => w ++ ' ' :: unwords ws

/-- Modelled from the spec: the query-normalization transformation of src/main.py lines
276-280 — lowercase the text, replace punctuation with spaces, collapse runs of spaces into
one and trim leading and trailing whitespace; realized as re-joining the space-free words of
the character-normalized text with single spaces. -/
def normalizeQuery (s : String) : String :=
  ⟨unwords (words (s.data.map normChar))⟩

/-- Modelled from the spec: the row-limit policy the conversation instructs the agent to
follow (src/main.py lines 292-298): an explicit user-specified limit takes precedence;
otherwise the default of 30 applies. -/
def effectiveLimit : Option Nat → Nat
  | some k => k
  | none => 30

/-! Character-level facts about lowercasing and the per-character normalization step. -/

theorem char_toNat_ofNat (n : Nat) (h : n.isValidChar) : (Char.ofNat n).toNat = n := by
  simp [Char.ofNat, h, Char.ofNatAux, Char.toNat, UInt32.toNat, BitVec.toNat_ofNatLt]

theorem toLower_eq (c : Char) :
    c.toLower = if c.toNat ≥ 65 ∧ c.toNat ≤ 90 then Char.ofNat (c.toNat + 32) else c := rfl

theorem toLower_not_upper (c : Char) : ¬(c.toLower.toNat ≥ 65 ∧ c.toLower.toNat ≤ 90) := by
  rw [toLower_eq]
  by_cases h : c.toNat ≥ 65 ∧ c.toNat ≤ 90
  · rw [if_pos h]
    have hv : (c.toNat + 32).isValidChar := Or.inl (by omega)
    rw [char_toNat_ofNat _ hv]
    omega
  · rw [if_neg h]
    exact h

theorem toLower_idem (c : Char) : c.toLower.toLower = c.toLower := by
  rw [toLower_eq c.toLower, if_neg (toLower_not_upper c)]

theorem normChar_space : normChar ' ' = ' ' := by decide

theorem normChar_idem (c : Char) : normChar (normChar c) = normChar c := by
  by_cases h : c.toLower ∈ punctChars
  · have h2 : normChar c = ' ' := by simp [normChar, h]
    rw [h2, normChar_space]
  · have h2 : normChar c = c.toLower := by simp [normChar, h]
    rw [h2]
    simp [normChar, toLower_idem, h]

/-! Facts about splitting into words and re-joining. -/

theorem words_nil : words [] = [] := by
  simp [words]

theorem words_cons (c : Char) (cs : List Char) :
    words (c :: cs) =
      if c = ' ' then words cs
      else (c :: cs.takeWhile (fun x => x != ' ')) ::
        words (cs.dropWhile (fun x => x != ' ')) := by
  rw [words]

theorem takeWhile_append_stop (p : Char → Bool) (l : List Char) (b : Char)
    (rest : List Char) (hl : ∀ x ∈ l, p x = true) (hb : p b = false) :
    (l ++ b :: rest).takeWhile p = l := by
  induction l with
  | nil => simp [List.takeWhile_cons, hb]
  | cons a l ih =>
    have ha : p a = true := hl a (by simp)
    simp only [List.cons_append, List.takeWhile_cons, ha, if_true]
    rw [ih (fun x hx => hl x (by simp [hx]))]

theorem dropWhile_append_stop (p : Char → Bool) (l : List Char) (b : Char)
    (rest : List Char) (hl : ∀ x ∈ l, p x = true) (hb : p b = false) :
    (l ++ b :: rest).dropWhile p = b :: rest := by
  induction l with
  | nil => simp [List.dropWhile_cons, hb]
  | cons a l ih =>
    have ha : p a = true := hl a (by simp)
    simp only [List.cons_append, List.dropWhile_cons, ha, if_true]
    exact ih (fun x hx => hl x (by simp [hx]))

theorem words_single (c : Char) (cs : List Char) (hc : ¬(c = ' '))
    (hcs : ∀ x ∈ cs, ¬(x = ' ')) : words (c :: cs) = [c :: cs] := by
  rw [words_cons, if_neg hc]
  have ht : cs.takeWhile (fun x => x != ' ') = cs :=
    List.takeWhile_eq_self_iff.mpr (fun x hx => by simpa using hcs x hx)
  have hd : cs.dropWhile (fun x => x != ' ') = [] :=
    List.dropWhile_eq_nil_iff.mpr (fun x hx => by simpa using hcs x hx)
  rw [ht, hd, words_nil]

theorem words_word_append (c : Char) (cs t : List Char) (hc : ¬(c = ' '))
    (hcs : ∀ x ∈ cs, ¬(x = ' ')) :
    words ((c :: cs) ++ ' ' :: t) = (c :: cs) :: words t := by
  rw [List.cons_append, words_cons, if_neg hc]
  have ht : (cs ++ ' ' :: t).takeWhile (fun x => x != ' ') = cs :=
    takeWhile_append_stop _ cs ' ' t (fun x hx => by simpa using hcs x hx) (by simp)
  have hd : (cs ++ ' ' :: t).dropWhile (fun x => x != ' ') = ' ' :: t :=
    dropWhile_append_stop _ cs ' ' t (fun x hx => by simpa using hcs x hx) (by simp)
  rw [ht, hd, words_cons, if_pos rfl]

theorem mem_words_sound (l : List Char) :
    ∀ w ∈ words l, w ≠ [] ∧ ∀ c ∈ w, ¬(c = ' ') := by
  induction l using words.induct with
  | case1 =>
    intro w hw
    rw [words_nil] at hw
    exact absurd hw (List.not_mem_nil w)
  | case2 cs ih =>
    intro w hw
    rw [words_cons, if_pos rfl] at hw
    exact ih w hw
  | case3 c cs hc ih =>
    intro w hw
    rw [words_cons, if_neg hc] at hw
    rcases List.mem_cons.mp hw with h | h
    · subst h
      refine ⟨by simp, ?_⟩
      intro x hx
      rcases List.mem_cons.mp hx with h | h
      · subst h
        exact hc
      · have hx2 := List.mem_takeWhile_imp h
        simpa using hx2
    · exact ih w h

theorem mem_words_subset (l : List Char) :
    ∀ w ∈ words l, ∀ c ∈ w, c ∈ l := by
  induction l using words.induct with
  | case1 =>
    intro w hw
    rw [words_nil] at hw
    exact absurd hw (List.not_mem_nil w)
  | case2 cs ih =>
    intro w hw x hx
    rw [words_cons, if_pos rfl] at hw
    exact List.mem_cons_of_mem _ (ih w hw x hx)
  | case3 c cs hc ih =>
    intro w hw x hx
    rw [words_cons, if_neg hc] at hw
    rcases List.mem_cons.mp hw with h | h
    · subst h
      rcases List.mem_cons.mp hx with h | h
      · subst h
        exact List.mem_cons_self _ _
      · exact List.mem_cons_of_mem _ (List.Sublist.mem h (List.takeWhile_sublist _))
    · have hx2 : x ∈ cs.dropWhile (fun x => x != ' ') := ih w h x hx
      exact List.mem_cons_of_mem _ (List.Sublist.mem hx2 (List.dropWhile_sublist _))

theorem words_unwords : ∀ ws : List (List Char),
    (∀ w ∈ ws, w ≠ [] ∧ ∀ c ∈ w, ¬(c = ' ')) → words (unwords ws) = ws := by
  intro ws
  induction ws with
  | nil => intro _; exact words_nil
  | cons w ws ih =>
    intro h
    obtain ⟨hne, hsf⟩ := h w (List.mem_cons_self _ _)
    cases w with
    | nil => exact absurd rfl hne
    | cons c cs =>
      have hc : ¬(c = ' ') := hsf c (List.mem_cons_self _ _)
      have hcs : ∀ x ∈ cs, ¬(x = ' ') := fun x hx => hsf x (List.mem_cons_of_mem _ hx)
      cases ws with
      | nil => exact words_single c cs hc hcs
      | cons w2 ws2 =>
        have hrest : ∀ v ∈ w2 :: ws2, v ≠ [] ∧ ∀ x ∈ v, ¬(x = ' ') :=
          fun v hv => h v (List.mem_cons_of_mem _ hv)
        calc words (unwords ((c :: cs) :: w2 :: ws2))
            = words ((c :: cs) ++ ' ' :: unwords (w2 :: ws2)) := rfl
          _ = (c :: cs) :: words (unwords (w2 :: ws2)) := words_word_append c cs _ hc hcs
          _ = (c :: cs) :: w2 :: ws2 := by rw [ih hrest]

theorem mem_unwords : ∀ ws : List (List Char), ∀ c ∈ unwords ws,
    c = ' ' ∨ ∃ w ∈ ws, c ∈ w := by
  intro ws
  induction ws with
  | nil =>
    intro c hc
    exact absurd hc (List.not_mem_nil c)
  | cons w ws ih =>
    cases ws with
    | nil =>
      intro c hc
      exact Or.inr ⟨w, List.mem_cons_self _ _, hc⟩
    | cons w2 ws2 =>
      intro c hc
      have hc2 : c ∈ w ++ ' ' :: unwords (w2 :: ws2) := hc
      rcases List.mem_append.mp hc2 with h | h
      · exact Or.inr ⟨w, List.mem_cons_self _ _, h⟩
      · rcases List.mem_cons.mp h with h | h
        · exact Or.inl h
        · rcases ih c h with h2 | ⟨v, hv, hcv⟩
          · exact Or.inl h2
          · exact Or.inr ⟨v, List.mem_cons_of_mem _ hv, hcv⟩

theorem map_normChar_fixed (l : List Char) (h : ∀ c ∈ l, normChar c = c) :
    l.map normChar = l :=
  (List.map_congr_left h).trans (List.map_id l)

theorem normalized_chars_fixed (s : String) :
    ∀ c ∈ unwords (words (s.data.map normChar)), normChar c = c := by
  intro c hc
  rcases mem_unwords _ c hc with h | ⟨w, hw, hcw⟩
  · rw [h]
    exact normChar_space
  · have hmem : c ∈ s.data.map normChar := mem_words_subset _ w hw c hcw
    rcases List.mem_map.mp hmem with ⟨c0, _, hc0⟩
    rw [← hc0]
    exact normChar_idem c0

/-! Substring containment facts for the prefix string. -/

theorem containsLit_here (a lit b : String) : containsLit (a ++ (lit ++ b)) lit :=
  ⟨a, b, rfl⟩

theorem containsLit_shift (s t lit : String) (h : containsLit t lit) :
    containsLit (s ++ t) lit := by
  obtain ⟨a, b, hab⟩ := h
  exact ⟨s ++ a, b, by rw [hab, String.append_assoc]⟩

theorem prefix_contains_dialect : containsLit prefixStr "\x7bdialect\x7d" := by
  refine ⟨prefSeg0, prefSeg1 ++ phTopK ++ prefSeg2 ++ phTopK ++ prefSeg3 ++
    limitPriorityBlock ++ prefSeg4 ++ phColumnMetadata ++ prefSeg5 ++
    phMetadataGroupings ++ prefSeg6, ?_⟩
  simp only [prefixStr, phDialect, String.append_assoc]

theorem prefix_contains_topk_ph : containsLit prefixStr "\x7btop_k\x7d" := by
  refine ⟨prefSeg0 ++ phDialect ++ prefSeg1, prefSeg2 ++ phTopK ++ prefSeg3 ++
    limitPriorityBlock ++ prefSeg4 ++ phColumnMetadata ++ prefSeg5 ++
    phMetadataGroupings ++ prefSeg6, ?_⟩
  simp only [prefixStr, phTopK, String.append_assoc]

theorem prefix_contains_colmeta : containsLit prefixStr "\x7bcolumn_metadata\x7d" := by
  refine ⟨prefSeg0 ++ phDialect ++ prefSeg1 ++ phTopK ++ prefSeg2 ++ phTopK ++
    prefSeg3 ++ limitPriorityBlock ++ prefSeg4,
    prefSeg5 ++ phMetadataGroupings ++ prefSeg6, ?_⟩
  simp only [prefixStr, phColumnMetadata, String.append_assoc]

theorem prefix_contains_groupings : containsLit prefixStr "\x7bMetadata_Groupings\x7d" := by
  refine ⟨prefSeg0 ++ phDialect ++ prefSeg1 ++ phTopK ++ prefSeg2 ++ phTopK ++
    prefSeg3 ++ limitPriorityBlock ++ prefSeg4 ++ phColumnMetadata ++ prefSeg5,
    prefSeg6, ?_⟩
  simp only [prefixStr, phMetadataGroupings, String.append_assoc]

theorem prefix_contains_priority : containsLit prefixStr limitPriorityBlock := by
  refine ⟨prefSeg0 ++ phDialect ++ prefSeg1 ++ phTopK ++ prefSeg2 ++ phTopK ++
    prefSeg3, prefSeg4 ++ phColumnMetadata ++ prefSeg5 ++
    phMetadataGroupings ++ prefSeg6, ?_⟩
  simp only [prefixStr, String.append_assoc]

theorem prefix_contains_top30 : containsLit prefixStr "top_k=30" := by
  refine ⟨prefSeg0 ++ phDialect ++ prefSeg1 ++ phTopK ++ prefSeg2 ++ phTopK ++
    prefSeg3 ++ limitPrioA, limitPrioB ++ prefSeg4 ++ phColumnMetadata ++
    prefSeg5 ++ phMetadataGroupings ++ prefSeg6, ?_⟩
  simp only [prefixStr, limitPriorityBlock, String.append_assoc]

/-! The claimed properties. -/

/-- Claim C1: every POST /query/ conversation opens with the system instruction string, which
carries the row-limit policy block: the default cap is `top_k=30`, an explicit user-specified
value has priority; as a policy function the explicit limit overrides the default of 30, so a
question asking for the top 5 yields a cap of 5. -/
theorem claim_C1 :
    (∀ d k u, (buildMessages d k u).head? = some (Msg.system prefixStr)) ∧
    containsLit prefixStr limitPriorityBlock ∧
    containsLit prefixStr "top_k=30" ∧
    effectiveLimit none = 30 ∧
    (∀ k, effectiveLimit (some k) = k) ∧
    effectiveLimit (some 5) = 5 :=
  ⟨fun _ _ _ => rfl, prefix_contains_priority, prefix_contains_top30, rfl,
    fun _ => rfl, rfl⟩

/-- Claim C2: any exception raised inside the body of handle_query is logged server-side with
the original exception, and the client receives exactly HTTPException(500, fixedDetail); the
client-visible value is a constant independent of the exception. -/
theorem claim_C2 {E DB : Type} (agent : DB → String → Except E String) (db : DB)
    (u : String) (e : E) (h : runBody agent db u = Except.error e) :
    handle_query agent db u =
      (Except.error ⟨500, fixedDetail⟩,
        [LogEntry.errorLog "Error handling query:" e]) := by
  unfold handle_query
  rw [h]

/-- Witness for claim C2 at a concrete failing agent. -/
theorem claim_C2_witness :
    handle_query (fun (_ : Unit) (_ : String) => (Except.error 7 : Except Nat String)) ()
      "total spend" =
      (Except.error ⟨500, fixedDetail⟩,
        [LogEntry.errorLog "Error handling query:" 7]) :=
  claim_C2 (fun _ _ => Except.error 7) () "total spend" 7 rfl

/-- Claim C3: the conversation is invariant in the locally computed dialect and top-k, whose
local value is 10; its system message is the raw prefix string, which still contains the four
literal, unsubstituted placeholders. -/
theorem claim_C3 :
    (∀ d d2 k k2 u, buildMessages d k u = buildMessages d2 k2 u) ∧
    (∀ d k u, (buildMessages d k u).head? = some (Msg.system prefixStr)) ∧
    containsLit prefixStr "\x7bdialect\x7d" ∧
    containsLit prefixStr "\x7btop_k\x7d" ∧
    containsLit prefixStr "\x7bcolumn_metadata\x7d" ∧
    containsLit prefixStr "\x7bMetadata_Groupings\x7d" ∧
    top_k = 10 :=
  ⟨fun _ _ _ _ _ => rfl, fun _ _ _ => rfl, prefix_contains_dialect,
    prefix_contains_topk_ph, prefix_contains_colmeta, prefix_contains_groupings, rfl⟩

/-- Claim C4: the conversation is, in order: the system instruction block, the user question,
the trailing instruction block, and the placeholder for intermediate reasoning steps. -/
theorem claim_C4 (d : String) (k : Nat) (u : String) :
    buildMessages d k u =
      [Msg.system prefixStr, Msg.human u, Msg.ai suffixStr,
       Msg.placeholder "agent_scratchpad"] := rfl

/-- Claim C5: on success, POST /query/ returns exactly the agent executor's final output
field wrapped as the single-field response object, with an empty error log and no other
transformation. -/
theorem claim_C5 {E DB : Type} (agent : DB → String → Except E String) (db : DB)
    (u out : String) (h : agent db (queryPrompt u) = Except.ok out) :
    handle_query agent db u = (Except.ok ⟨out⟩, []) := by
  unfold handle_query runBody
  rw [h]
  rfl

/-- Witness for claim C5 at a concrete succeeding agent. -/
theorem claim_C5_witness :
    handle_query (fun (_ : Unit) (_ : String) => (Except.ok "42 rows" : Except Nat String))
      () "total spend" = (Except.ok ⟨"42 rows"⟩, []) :=
  claim_C5 (fun _ _ => Except.ok "42 rows") () "total spend" "42 rows" rfl

/-- Claim C6: the keep-alive job is registered on a fixed interval trigger; a run executes
exactly the query "SELECT 1" against the fetched connection; no exception ever escapes a run,
and the scheduling loop completes all its firings whatever the failures. -/
theorem claim_C6 :
    keepAliveJob.trigger = "interval" ∧
    (∀ (E DB : Type) (gi : Except E DB) (runQ : DB → String → Except E Unit),
      ((keep_connection_alive gi runQ).1).escapes = false) ∧
    (∀ (E DB : Type) (db : DB) (runQ : DB → String → Except E Unit),
      (keep_connection_alive (Except.ok db) runQ).2 = [(db, "SELECT 1")]) ∧
    (∀ (E DB : Type) (gis : Nat → Except E DB)
      (runs : Nat → DB → String → Except E Unit) (n : Nat),
      (schedulerLoop gis runs n).length = n) := by
  refine ⟨rfl, ?_, ?_, ?_⟩
  · intro E DB gi runQ
    cases gi with
    | error e => rfl
    | ok db =>
      cases h : runQ db "SELECT 1" with
      | ok _ => simp [keep_connection_alive, h, KAResult.escapes]
      | error e => simp [keep_connection_alive, h, KAResult.escapes]
  · intro E DB db runQ
    cases h : runQ db "SELECT 1" with
    | ok _ => simp [keep_connection_alive, h]
    | error e => simp [keep_connection_alive, h]
  · intro E DB gis runs n
    induction n with
    | zero => rfl
    | succ n ih => simp [schedulerLoop, ih]

/-- Claim C7: the source schedules the keep-alive job every 999999 seconds — more than a day,
effectively disabling it — while the adjacent comment documents an interval of 10 seconds. -/
theorem claim_C7 :
    keepAliveJob.seconds = 999999 ∧
    documentedKeepAliveIntervalSeconds = 10 ∧
    (keepAliveJob.seconds == documentedKeepAliveIntervalSeconds) = false ∧
    86400 < keepAliveJob.seconds :=
  ⟨rfl, rfl, by decide, by decide⟩

/-- Claim C8: the query-normalization transformation is idempotent — normalizing an
already-normalized string returns it unchanged. -/
theorem claim_C8 (s : String) : normalizeQuery (normalizeQuery s) = normalizeQuery s := by
  have h1 : (unwords (words (s.data.map normChar))).map normChar
      = unwords (words (s.data.map normChar)) :=
    map_normChar_fixed _ (normalized_chars_fixed s)
  have h2 : words (unwords (words (s.data.map normChar))) = words (s.data.map normChar) :=
    words_unwords _ (mem_words_sound _)
  show String.mk (unwords (words ((unwords (words (s.data.map normChar))).map normChar)))
      = String.mk (unwords (words (s.data.map normChar)))
  rw [h1, h2]

/-- Claim C9: get_instance caches the connection it returns, a second call returns the same
instance and leaves the cache unchanged, and the dependency resolver get_db_connection is
exactly get_instance — so every caller observes one process-wide connection. -/
theorem claim_C9 {DB : Type} (mk : DB) (st : Option DB) :
    (get_instance mk st).2 = some (get_instance mk st).1 ∧
    get_instance mk ((get_instance mk st).2) =
      ((get_instance mk st).1, (get_instance mk st).2) ∧
    get_db_connection mk st = get_instance mk st := by
  cases st <;> simp [get_instance, get_db_connection]

/-- Claim C10: a failure while resolving the database dependency happens before handle_query's
try/except is entered: the exception propagates as a dependency failure and is not converted
into the fixed-detail 500 HTTPException. -/
theorem claim_C10 {E DB : Type} (e : E) (agent : DB → String → Except E String)
    (u : String) :
    postQuery (Except.error e) agent u = EndpointOutcome.dependencyFailure e ∧
    (postQuery (Except.error e) agent u).isFixed500 = false :=
  ⟨rfl, rfl⟩

end Invoice
